import Mathlib

/-!
Shallow embedding of the cibuildwheel platform drivers (`cibuildwheel/linux.py`
and `cibuildwheel/macos.py`) together with the environment-expression
evaluator described by the specification, and theorems settling the frozen
claims about them.
-/

set_option autoImplicit false

namespace Cibw

/-! ## Build-matrix catalogs and enumerators -/

/-- Architecture values used by the drivers.  The `Architecture` enumeration
itself lives in `cibuildwheel/util.py`, which is not among the sources; the
members used here are the ones the spec and the two drivers mention:
macOS uses `x86_64`, `universal2`, `arm64`; Linux images exist for `x86_64`
and `i686`. -/
inductive Architecture where
  | x86_64
  | universal2
  | arm64
  | i686
  deriving DecidableEq, Repr

/-- The `.value` string of an architecture member (its identifier suffix). -/
def Architecture.value : Architecture → String
  | .x86_64 => "x86_64"
  | .universal2 => "universal2"
  | .arm64 => "arm64"
  | .i686 => "i686"

/-- `str.startswith` at character level: `p` is a leading run of `s`. -/
def strStartsWith (s p : String) : Bool :=
  p.toList.isPrefixOf s.toList

/-- `str.endswith` at character level: `p` is a trailing run of `s`. -/
def strEndsWith (s p : String) : Bool :=
  p.toList.reverse.isPrefixOf s.toList.reverse

/-- A row of the static Linux interpreter catalog
(`linux.py`, `get_python_configurations`). -/
structure LinuxPythonConfiguration where
  version : String
  identifier : String
  path : String
  deriving DecidableEq, Repr

/-- The static catalog of `linux.py` lines 14-27, in source order. -/
def linuxPythonConfigurations : List LinuxPythonConfiguration := [
  ⟨"2.7", "cp27-manylinux_x86_64", "/opt/python/cp27-cp27m"⟩,
  ⟨"2.7", "cp27-manylinux_x86_64", "/opt/python/cp27-cp27mu"⟩,
  ⟨"3.5", "cp35-manylinux_x86_64", "/opt/python/cp35-cp35m"⟩,
  ⟨"3.6", "cp36-manylinux_x86_64", "/opt/python/cp36-cp36m"⟩,
  ⟨"3.7", "cp37-manylinux_x86_64", "/opt/python/cp37-cp37m"⟩,
  ⟨"3.8", "cp38-manylinux_x86_64", "/opt/python/cp38-cp38"⟩,
  ⟨"2.7", "cp27-manylinux_i686", "/opt/python/cp27-cp27m"⟩,
  ⟨"2.7", "cp27-manylinux_i686", "/opt/python/cp27-cp27mu"⟩,
  ⟨"3.5", "cp35-manylinux_i686", "/opt/python/cp35-cp35m"⟩,
  ⟨"3.6", "cp36-manylinux_i686", "/opt/python/cp36-cp36m"⟩,
  ⟨"3.7", "cp37-manylinux_i686", "/opt/python/cp37-cp37m"⟩,
  ⟨"3.8", "cp38-manylinux_i686", "/opt/python/cp38-cp38"⟩]

/-- `linux.py` `get_python_configurations`: keep the catalog rows whose
identifier the build selector accepts. -/
def linux_get_python_configurations (build_selector : String → Bool) :
    List LinuxPythonConfiguration :=
  linuxPythonConfigurations.filter (fun c => build_selector c.identifier)

/-- A row of the static macOS interpreter catalog
(`macos.py`, `PythonConfiguration`). -/
structure MacPythonConfiguration where
  version : String
  identifier : String
  url : String
  deriving DecidableEq, Repr

/-- The static catalog of `macos.py` lines 51-65, in source order
(URLs abbreviated to the distinguishing file name). -/
def macPythonConfigurations : List MacPythonConfiguration := [
  ⟨"2.7", "cp27-macosx_x86_64", "python-2.7.18-macosx10.9.pkg"⟩,
  ⟨"3.5", "cp35-macosx_x86_64", "python-3.5.4-macosx10.6.pkg"⟩,
  ⟨"3.6", "cp36-macosx_x86_64", "python-3.6.8-macosx10.9.pkg"⟩,
  ⟨"3.7", "cp37-macosx_x86_64", "python-3.7.9-macosx10.9.pkg"⟩,
  ⟨"3.8", "cp38-macosx_x86_64", "python-3.8.7-macosx10.9.pkg"⟩,
  ⟨"3.9", "cp39-macosx_x86_64", "python-3.9.1-macos11.0.pkg"⟩,
  ⟨"3.9", "cp39-macosx_universal2", "python-3.9.1-macos11.0.pkg"⟩,
  ⟨"3.9", "cp39-macosx_arm64", "python-3.9.1-macos11.0.pkg"⟩,
  ⟨"2.7", "pp27-macosx_x86_64", "pypy2.7-v7.3.3-osx64.tar.bz2"⟩,
  ⟨"3.6", "pp36-macosx_x86_64", "pypy3.6-v7.3.3-osx64.tar.bz2"⟩,
  ⟨"3.7", "pp37-macosx_x86_64", "pypy3.7-v7.3.3-osx64.tar.bz2"⟩]

/-- The warnings `macos.py` `get_python_configurations` can log while pruning
unsupported combinations on macOS 11. -/
inductive MacWarning where
  | pypyUnsupported
  | cpython35Unsupported
  deriving DecidableEq, Repr

/-- Python tuple comparison `a <= b` on two-element integer tuples
(lexicographic), as used for `get_macos_version() >= (11, 0)`. -/
def pyTupleLe (a b : Nat × Nat) : Bool :=
  Nat.blt a.1 b.1 || (a.1 == b.1 && Nat.ble a.2 b.2)

/-- `macos.py` `get_python_configurations`: filter the catalog by selected
architecture suffix, then by the build selector, then — when the detected
macOS version is at least `(11, 0)` — drop PyPy and CPython 3.5 entries with
a logged warning for each family that was present.  The detected macOS
version is passed as an explicit argument. -/
def macos_get_python_configurations (build_selector : String → Bool)
    (architectures : List Architecture) (macosVersion : Nat × Nat) :
    List MacPythonConfiguration × List MacWarning :=
  let cs := macPythonConfigurations.filter
    (fun c => architectures.any (fun a => strEndsWith c.identifier a.value))
  let cs := cs.filter (fun c => build_selector c.identifier)
  if pyTupleLe (11, 0) macosVersion then
    let anyPypy := cs.any (fun c => strStartsWith c.identifier "pp")
    let cs1 := if anyPypy then cs.filter (fun c => !strStartsWith c.identifier "pp") else cs
    let anyCp35 := cs1.any (fun c => strStartsWith c.identifier "cp35")
    let cs2 := if anyCp35 then cs1.filter (fun c => !strStartsWith c.identifier "cp35") else cs1
    (cs2, (if anyPypy then [MacWarning.pypyUnsupported] else []) ++
          (if anyCp35 then [MacWarning.cpython35Unsupported] else []))
  else
    (cs, [])

/-! ## macOS per-configuration build pipeline (`macos.py`, `build`) -/

/-- Stage directories and the output directory as seen by one driver run.
A directory is `none` when it does not exist, `some files` when it exists
and holds `files` (in creation order, which is the glob order we model). -/
structure StageFS where
  builtWheelDir : Option (List String)
  repairedWheelDir : Option (List String)
  output : List String
  deriving DecidableEq, Repr

/-- External outcome of the commands one configuration runs: the wheel files
`pip wheel` writes into the built-wheel directory, and the files the repair
command writes into the repaired-wheel directory (used only when a repair
command is configured). -/
structure ConfigOracle where
  builtProduced : List String
  repairProduced : List String
  deriving DecidableEq, Repr

/-- The `*.whl` glob over a directory's contents. -/
def wheelGlob (files : List String) : List String :=
  files.filter (fun f => strEndsWith f ".whl")

/-- Index of the last `.` of a character list, if any. -/
def lastDotIdx (l : List Char) : Option Nat :=
  ((l.enum.filter (fun p => p.2 = '.')).map (fun p => p.1)).getLast?

/-- `pathlib.Path(s).stem` for a bare file name: the name without its final
extension; a leading dot does not start an extension. -/
def pathStem (s : String) : String :=
  match lastDotIdx s.toList with
  | some i => if i = 0 then s else ⟨s.toList.take i⟩
  | none => s

/-- Observable events of `macos.py` `build`. -/
inductive MacEvent where
  | raisedValueError
  | madeTempDir
  | purgedBuiltDir
  | ranPipWheel
  | globbedBuilt (files : List String)
  | purgedRepairedDir
  | raisedNonPlatformWheel
  | ranRepair
  | movedBuiltToRepaired
  | globbedRepaired (files : List String)
  | renamedWheel (src dst : String)
  | ranTest
  | movedToOutput (name : String)
  deriving DecidableEq, Repr

/-- Exceptions `macos.py` `build` can raise in the modelled region. -/
inductive MacError where
  | valueError
  | stopIteration
  | nonPlatformWheel
  deriving DecidableEq, Repr

/-- One iteration of the configuration loop of `macos.py` `build`
(lines 277-333 and 429): purge and recreate the built-wheel directory, run
`pip wheel`, take the first `*.whl` glob match, purge and recreate the
repaired-wheel directory, raise `NonPlatformWheelError` on a `none-any.whl`
wheel, repair or move the wheel, take the first repaired `*.whl` glob match,
rename a `_universal2`-stem wheel, optionally test, and move the result to
the output directory.  `rc`/`tc` say whether a repair/test command is
configured. -/
def buildOneConfig (rc tc : Bool) (orc : ConfigOracle) (fs : StageFS) :
    List MacEvent × Except MacError StageFS :=
  let fs := { fs with builtWheelDir := some [] }
  let fs := { fs with builtWheelDir := some ((fs.builtWheelDir.getD []) ++ orc.builtProduced) }
  let builtFiles := wheelGlob (fs.builtWheelDir.getD [])
  let evs := [MacEvent.purgedBuiltDir, MacEvent.ranPipWheel, MacEvent.globbedBuilt builtFiles]
  match builtFiles.head? with
  | none => (evs, .error .stopIteration)
  | some builtWheel =>
    let fs := { fs with repairedWheelDir := some [] }
    let evs := evs ++ [MacEvent.purgedRepairedDir]
    if strEndsWith builtWheel "none-any.whl" then
      (evs ++ [MacEvent.raisedNonPlatformWheel], .error .nonPlatformWheel)
    else
      let fs :=
        if rc then
          { fs with repairedWheelDir := some ((fs.repairedWheelDir.getD []) ++ orc.repairProduced) }
        else
          { fs with repairedWheelDir := some ((fs.repairedWheelDir.getD []) ++ [builtWheel]),
                    builtWheelDir := some ((fs.builtWheelDir.getD []).erase builtWheel) }
      let evs := evs ++ (if rc then [MacEvent.ranRepair] else [MacEvent.movedBuiltToRepaired])
      let repairedFiles := wheelGlob (fs.repairedWheelDir.getD [])
      let evs := evs ++ [MacEvent.globbedRepaired repairedFiles]
      match repairedFiles.head? with
      | none => (evs, .error .stopIteration)
      | some repairedWheel0 =>
        let isU2 := strEndsWith (pathStem repairedWheel0) "_universal2"
        let repairedWheel :=
          if isU2 then (pathStem repairedWheel0) ++ ".macosx_11_0_universal2.whl"
          else repairedWheel0
        let fs :=
          if isU2 then
            { fs with
              repairedWheelDir :=
                some (((fs.repairedWheelDir.getD []).erase repairedWheel0) ++ [repairedWheel]) }
          else fs
        let evs := evs ++ (if isU2 then [MacEvent.renamedWheel repairedWheel0 repairedWheel] else [])
        let evs := evs ++ (if tc then [MacEvent.ranTest] else [])
        let fs := { fs with
          repairedWheelDir := some ((fs.repairedWheelDir.getD []).erase repairedWheel),
          output := fs.output ++ [repairedWheel] }
        (evs ++ [MacEvent.movedToOutput repairedWheel], .ok fs)

/-- The configuration loop of `macos.py` `build`, threading the filesystem
through `buildOneConfig`; the first exception aborts the loop. -/
def macosBuildConfigs (rc tc : Bool) :
    List ConfigOracle → StageFS → List MacEvent × Except MacError StageFS
  | [], fs => ([], .ok fs)
  | orc :: rest, fs =>
    match buildOneConfig rc tc orc fs with
    | (evs, .error e) => (evs, .error e)
    | (evs, .ok fs1) =>
      let (evs1, r) := macosBuildConfigs rc tc rest fs1
      (evs ++ evs1, r)

/-- The allowed architecture set of `macos.py` `build` line 241. -/
def allowedArchs : List Architecture :=
  [Architecture.x86_64, Architecture.universal2, Architecture.arm64]

/-- `macos.py` `build` lines 240-248 and the configuration loop: the
function raises `ValueError` when the requested architecture set is a
subset of `allowed_archs` (the comparison as written in the source), and
otherwise creates the temporary directory and processes each enumerated
configuration. -/
def macosBuild (architectures : List Architecture) (rc tc : Bool)
    (oracles : List ConfigOracle) (fs : StageFS) :
    List MacEvent × Except MacError StageFS :=
  if architectures.all (fun a => allowedArchs.contains a) then
    ([MacEvent.raisedValueError], .error .valueError)
  else
    let (evs, r) := macosBuildConfigs rc tc oracles fs
    (MacEvent.madeTempDir :: evs, r)

/-! ## Linux per-configuration container script (`linux.py`, lines 85-169) -/

/-- Observable events of the bash script `linux.py` streams into the
container for one configuration. -/
inductive LinuxEvent where
  | purgedBuiltDir
  | ranPipWheel
  | globbedBuilt (files : List String)
  | purgedRepairedDir
  | movedBuiltToRepaired
  | ranRepair
  | globbedRepaired (files : List String)
  | ranTest
  | movedToOutput (names : List String)
  deriving DecidableEq, Repr

/-- Failure of the container script (`errexit` aborts it). -/
inductive LinuxError where
  | scriptFailed
  deriving DecidableEq, Repr

/-- One configuration's container script (`linux.py` lines 85-169):
`rm -rf`/`mkdir` of `/tmp/built_wheel`, `pip wheel`, first glob match as
`$built_wheel`, `rm -rf`/`mkdir` of `/tmp/repaired_wheels`, then either
`mv` (for a `*none-any.whl` wheel or an empty repair command) or the repair
command, glob of the repaired wheels, optional tests, and `mv` of every
repaired wheel to `/output`. -/
def linuxBuildOneConfig (rc tc : Bool) (orc : ConfigOracle) (fs : StageFS) :
    List LinuxEvent × Except LinuxError StageFS :=
  let fs := { fs with builtWheelDir := some [] }
  let fs := { fs with builtWheelDir := some ((fs.builtWheelDir.getD []) ++ orc.builtProduced) }
  let builtFiles := wheelGlob (fs.builtWheelDir.getD [])
  let evs := [LinuxEvent.purgedBuiltDir, LinuxEvent.ranPipWheel, LinuxEvent.globbedBuilt builtFiles]
  match builtFiles.head? with
  | none => (evs, .error .scriptFailed)
  | some builtWheel =>
    let fs := { fs with repairedWheelDir := some [] }
    let evs := evs ++ [LinuxEvent.purgedRepairedDir]
    let pureOrNoRepair := strEndsWith builtWheel "none-any.whl" || !rc
    let fs :=
      if pureOrNoRepair then
        { fs with repairedWheelDir := some ((fs.repairedWheelDir.getD []) ++ [builtWheel]),
                  builtWheelDir := some ((fs.builtWheelDir.getD []).erase builtWheel) }
      else
        { fs with repairedWheelDir := some ((fs.repairedWheelDir.getD []) ++ orc.repairProduced) }
    let evs := evs ++
      (if pureOrNoRepair then [LinuxEvent.movedBuiltToRepaired] else [LinuxEvent.ranRepair])
    let repairedFiles := wheelGlob (fs.repairedWheelDir.getD [])
    let evs := evs ++ [LinuxEvent.globbedRepaired repairedFiles]
    let evs := evs ++ (if tc then [LinuxEvent.ranTest] else [])
    let fs := { fs with repairedWheelDir := some [],
                        output := fs.output ++ repairedFiles }
    (evs ++ [LinuxEvent.movedToOutput repairedFiles], .ok fs)

/-! ## Linux container lifecycle (`linux.py`, `build` lines 65-196) -/

/-- The docker commands the per-platform scope of `linux.py` `build` issues
(each through `run_docker`). -/
inductive DockerCmd where
  | create
  | copyProjectIn
  | copyConstraints
  | start
  | copyOut
  | rm
  deriving DecidableEq, Repr

/-- Python exceptions relevant to the per-platform scope. -/
inductive PyExc where
  | calledProcessError
  | systemExit (code : Nat)
  | other
  deriving DecidableEq, Repr

/-- Issue one docker command: it is appended to the trace of issued commands
and the oracle (indexed by the number of commands issued so far) decides
whether it raises. -/
def issue (oracle : Nat → Option PyExc) (tr : List DockerCmd) (c : DockerCmd) :
    List DockerCmd × Option PyExc :=
  (tr ++ [c], oracle tr.length)

/-- Run a sequence of docker commands, stopping at the first exception. -/
def runSeq (oracle : Nat → Option PyExc) :
    List DockerCmd → List DockerCmd → List DockerCmd × Option PyExc
  | tr, [] => (tr, none)
  | tr, c :: cs =>
    let (tr1, r) := issue oracle tr c
    match r with
    | none => runSeq oracle tr1 cs
    | some e => (tr1, some e)

/-- The docker commands the `try` body of the per-platform scope plans to
issue: `create`, `cp` of the project, then per configuration an optional
constraints `cp` followed by `start`, then the output `cp`. -/
def bodyPlan (hasConstraints : Bool) (nConfigs : Nat) : List DockerCmd :=
  [DockerCmd.create, DockerCmd.copyProjectIn] ++
    (List.replicate nConfigs
      ((if hasConstraints then [DockerCmd.copyConstraints] else []) ++ [DockerCmd.start])).flatten ++
    [DockerCmd.copyOut]

/-- The per-platform `try`/`except CalledProcessError`/`finally` scope of
`linux.py` `build` lines 70-196: run the body; a `CalledProcessError`
is answered by `exit(1)` (a pending `SystemExit 1`); the `finally` clause
issues `docker rm --force -v` unconditionally, and an exception raised by
that `rm` replaces any pending one (Python `finally` semantics). -/
def linuxPlatformScope (oracle : Nat → Option PyExc) (hasConstraints : Bool)
    (nConfigs : Nat) : List DockerCmd × Option PyExc :=
  let (tr, r) := runSeq oracle [] (bodyPlan hasConstraints nConfigs)
  let r1 := match r with
    | some .calledProcessError => some (PyExc.systemExit 1)
    | r => r
  let (tr2, rFin) := issue oracle tr .rm
  (tr2, match rFin with
        | none => r1
        | some e => some e)

/-! ## `run_docker` with piped stdin (`linux.py` lines 33-46) -/

/-- Operations `run_docker` performs on the child process. -/
inductive ChildAction where
  | communicate
  | kill
  | wait
  deriving DecidableEq, Repr

/-- What `run_docker` does after `communicate`. -/
inductive RunDockerOutcome where
  | ok
  | calledProcessError (returncode : Int)
  | keyboardInterrupt
  deriving DecidableEq, Repr

/-- `linux.py` `run_docker` with a `stdin_str`: `communicate` on the child;
a `KeyboardInterrupt` raised during it is caught, the child is killed and
waited on, and control falls through (the interrupt is not re-raised);
finally a nonzero `returncode` raises `CalledProcessError`.  `interrupted`
says whether a `KeyboardInterrupt` arrived during `communicate`;
`returncode` is the child's exit status once it has been reaped. -/
def runDockerStdin (interrupted : Bool) (returncode : Int) :
    List ChildAction × RunDockerOutcome :=
  let actions :=
    if interrupted then [ChildAction.communicate, ChildAction.kill, ChildAction.wait]
    else [ChildAction.communicate]
  (actions, if returncode ≠ 0 then .calledProcessError returncode else .ok)

/-! ## Linux build entry (`linux.py`, `build` lines 49-77) -/

/-- Milestones of the start of `linux.py` `build`. -/
inductive LinuxEntryEvent where
  | probedDocker
  | printedDockerNotFound
  | enumeratedConfigs
  | createdContainer
  deriving DecidableEq, Repr

/-- How the start of `linux.py` `build` can abort.  The code only ever
calls `exit` with a numeric status; the `provisioningError` alternative is
the exception type the spec's error taxonomy names, included so the claim
about it can be stated — no code path produces it. -/
inductive LinuxAbort where
  | exitCode (n : Nat)
  | provisioningError
  deriving DecidableEq, Repr

/-- `linux.py` `build` lines 49-77: probe `docker --version`; on failure
print a message and `exit(2)`; otherwise enumerate the configurations and,
when a platform has any selected configuration, issue the container-create
command.  `dockerAvailable` is the probe's outcome and `anyPlatformConfigs`
says whether some platform retains a selected configuration. -/
def linuxBuildEntry (dockerAvailable : Bool) (anyPlatformConfigs : Bool) :
    List LinuxEntryEvent × Option LinuxAbort :=
  if dockerAvailable then
    ([LinuxEntryEvent.probedDocker, LinuxEntryEvent.enumeratedConfigs] ++
      (if anyPlatformConfigs then [LinuxEntryEvent.createdContainer] else []), none)
  else
    ([LinuxEntryEvent.probedDocker, LinuxEntryEvent.printedDockerNotFound],
     some (LinuxAbort.exitCode 2))

/-! ## Environment expression evaluator -/

/-- Single-quote character. -/
def cQuote : Char := Char.ofNat 39

/-- Double-quote character. -/
def cDquote : Char := Char.ofNat 34

/-- Backslash character. -/
def cBackslash : Char := Char.ofNat 92

/-- Dollar character. -/
def cDollar : Char := Char.ofNat 36

/-- Opening-brace character. -/
def cLbrace : Char := Char.ofNat 123

/-- Closing-brace character. -/
def cRbrace : Char := Char.ofNat 125

/-- Characters allowed in a `$VAR` variable name. -/
def isVarChar (c : Char) : Bool :=
  c.isAlphanum || c = '_'

/-- Read a maximal run of variable-name characters. -/
def readVarName : List Char → String × List Char
  | [] => ("", [])
  | c :: cs =>
    if isVarChar c then
      let (n, rest) := readVarName cs
      (String.singleton c ++ n, rest)
    else ("", c :: cs)

/-- Read a brace-delimited variable name, consuming the closing brace. -/
def readBracedName : List Char → String × List Char
  | [] => ("", [])
  | c :: cs =>
    if c = cRbrace then ("", cs)
    else
      let (n, rest) := readBracedName cs
      (String.singleton c ++ n, rest)

/-- Expand the text following a `$`: a `{NAME}` group or a maximal
variable-name run; a lone `$` stays literal. Returns the expansion and the
unconsumed characters. -/
def expandDollar (look : String → String) (cs : List Char) : String × List Char :=
  match cs with
  | [] => ("$", [])
  | b :: bs =>
    if b = cLbrace then
      let (n, rest) := readBracedName bs
      (look n, rest)
    else
      let (n, rest) := readVarName (b :: bs)
      if n = "" then ("$", b :: bs) else (look n, rest)

/-- Quoting state of the shell-word scanner. -/
inductive QuoteMode where
  | noQuote
  | single
  | double
  deriving DecidableEq, Repr

/-- Modelled from the spec: the environment evaluator (the
`parse_environment` entry point, `environment.py` / `bashlex_eval.py`) is
not among the sources — only its unit tests are.  Following spec §4.1/§6,
`evalChars` evaluates one `NAME=value` word's value: single quotes inhibit
substitution, double quotes allow it, `$VAR`/`${VAR}` expand through
`look`, backslash escapes the following character, and unterminated quotes
or a trailing backslash are literal, never errors.  `fuel` bounds the
recursion; callers pass the input length plus one, which every branch's
one-character-or-more consumption keeps sufficient. -/
def evalChars (look : String → String) : Nat → QuoteMode → List Char → String
  | 0, _, _ => ""
  | _ + 1, _, [] => ""
  | fuel + 1, .noQuote, c :: cs =>
    if c = cQuote then evalChars look fuel .single cs
    else if c = cDquote then evalChars look fuel .double cs
    else if c = cDollar then
      let (chunk, rest) := expandDollar look cs
      chunk ++ evalChars look fuel .noQuote rest
    else if c = cBackslash then
      match cs with
      | [] => String.singleton cBackslash
      | d :: ds => String.singleton d ++ evalChars look fuel .noQuote ds
    else String.singleton c ++ evalChars look fuel .noQuote cs
  | fuel + 1, .single, c :: cs =>
    if c = cQuote then evalChars look fuel .noQuote cs
    else String.singleton c ++ evalChars look fuel .single cs
  | fuel + 1, .double, c :: cs =>
    if c = cDquote then evalChars look fuel .noQuote cs
    else if c = cDollar then
      let (chunk, rest) := expandDollar look cs
      chunk ++ evalChars look fuel .double rest
    else if c = cBackslash then
      match cs with
      | [] => String.singleton cBackslash
      | d :: ds =>
        if d = cDquote || d = cDollar || d = cBackslash then
          String.singleton d ++ evalChars look fuel .double ds
        else String.singleton cBackslash ++ String.singleton d ++ evalChars look fuel .double ds
    else String.singleton c ++ evalChars look fuel .double cs

/-- Modelled from the spec: shell word-splitting of the user environment
text (spec §6) — words are delimited by unquoted whitespace; quote groups
and backslash pairs keep their characters (they are interpreted later by
`evalChars`); an unterminated quote runs to the end of the input. -/
def shellWordsAux (mode : QuoteMode) (cur : List Char) : List Char → List String
  | [] => if cur.isEmpty then [] else [⟨cur⟩]
  | c :: cs =>
    match mode with
    | .noQuote =>
      if c = ' ' || c = '\t' || c = '\n' then
        (if cur.isEmpty then [] else [⟨cur⟩]) ++ shellWordsAux .noQuote [] cs
      else if c = cQuote then shellWordsAux .single (cur ++ [c]) cs
      else if c = cDquote then shellWordsAux .double (cur ++ [c]) cs
      else if c = cBackslash then
        match cs with
        | [] => [⟨cur ++ [c]⟩]
        | d :: ds => shellWordsAux .noQuote (cur ++ [c, d]) ds
      else shellWordsAux .noQuote (cur ++ [c]) cs
    | .single =>
      if c = cQuote then shellWordsAux .noQuote (cur ++ [c]) cs
      else shellWordsAux .single (cur ++ [c]) cs
    | .double =>
      if c = cDquote then shellWordsAux .noQuote (cur ++ [c]) cs
      else if c = cBackslash then
        match cs with
        | [] => [⟨cur ++ [c]⟩]
        | d :: ds => shellWordsAux .double (cur ++ [c, d]) ds
      else shellWordsAux .double (cur ++ [c]) cs

/-- Split user environment text into assignment words. -/
def shellWords (s : String) : List String :=
  shellWordsAux .noQuote [] s.toList

/-- One parsed `NAME=value` assignment; `valueExpr` is the raw value text,
quotes included. -/
structure EnvironmentAssignment where
  name : String
  valueExpr : String
  deriving DecidableEq, Repr

/-- Split an assignment word at its first `=`. -/
def splitAtFirstEq (w : String) : Option (String × String) :=
  let l := w.toList
  match l.findIdx? (fun c => c = '=') with
  | some i => some (⟨l.take i⟩, ⟨l.drop (i + 1)⟩)
  | none => none

/-- Modelled from the spec: `parse_environment` (spec §4.1) — split the
text into words and parse each as a `NAME=value` assignment; an entry
without `=` fails with a parse error identifying that entry. -/
def parse_environment (s : String) : Except String (List EnvironmentAssignment) :=
  (shellWords s).mapM (fun w =>
    match splitAtFirstEq w with
    | some (n, v) => Except.ok ⟨n, v⟩
    | none => Except.error w)

/-- An environment as an association list; the first match for a name is
its current value. -/
abbrev Env := List (String × String)

/-- Look a name up in an environment. -/
def envLookup (env : Env) (n : String) : Option String :=
  (env.find? (fun p => p.1 == n)).map (fun p => p.2)

/-- Bind a name, shadowing earlier bindings. -/
def envSet (env : Env) (n v : String) : Env :=
  (n, v) :: env

/-- Evaluate one assignment's value text against a lookup function. -/
def evalWord (look : String → String) (w : String) : String :=
  evalChars look (w.toList.length + 1) .noQuote w.toList

/-- Modelled from the spec: `ParsedEnvironment.as_dictionary` (spec §4.1) —
evaluate the assignments in order on top of the caller-supplied base
environment; each value's `$VAR` references resolve first against
assignments already evaluated (which shadow the base) and then against the
base environment, and an unresolved reference expands to the empty
string. -/
def as_dictionary (assignments : List EnvironmentAssignment)
    (prev_environment : Env) : Env :=
  assignments.foldl
    (fun env a =>
      envSet env a.name (evalWord (fun n => (envLookup env n).getD "") a.valueExpr))
    prev_environment

/-- Parse environment text and evaluate it against a base environment;
`none` when parsing fails. -/
def evalEnvironmentText (s : String) (base : Env) : Option Env :=
  match parse_environment s with
  | .ok asgs => some (as_dictionary asgs base)
  | .error _ => none

/-! ## Theorems -/

/-- Conditionally filtering on a nonempty match set equals unconditional
filtering: when no element matches, the filter is the identity. -/
theorem ifAnyFilter {α : Type} (l : List α) (p : α → Bool) :
    (if l.any p then l.filter (fun x => !p x) else l) = l.filter (fun x => !p x) := by
  by_cases h : l.any p
  · simp [h]
  · rw [if_neg h, Eq.comm, List.filter_eq_self]
    intro a ha
    simp only [List.any_eq_true, not_exists, not_and] at h
    simp [h a ha]

/-- The arch-and-selector-filtered macOS catalog, before version pruning. -/
def macosSelected (build_selector : String → Bool)
    (architectures : List Architecture) : List MacPythonConfiguration :=
  (macPythonConfigurations.filter
    (fun c => architectures.any (fun a => strEndsWith c.identifier a.value))).filter
    (fun c => build_selector c.identifier)

/-- On macOS 11 and later, `get_python_configurations` returns the selected
catalog entries with the PyPy and CPython 3.5 families filtered out, and
warns for each family that was present. -/
theorem macosGet_eq_of_ge (build_selector : String → Bool)
    (architectures : List Architecture) (macosVersion : Nat × Nat)
    (h11 : pyTupleLe (11, 0) macosVersion = true) :
    macos_get_python_configurations build_selector architectures macosVersion =
      (((macosSelected build_selector architectures).filter
          (fun c => !strStartsWith c.identifier "pp")).filter
          (fun c => !strStartsWith c.identifier "cp35"),
       (if (macosSelected build_selector architectures).any
            (fun c => strStartsWith c.identifier "pp") then [MacWarning.pypyUnsupported] else []) ++
       (if ((macosSelected build_selector architectures).filter
            (fun c => !strStartsWith c.identifier "pp")).any
            (fun c => strStartsWith c.identifier "cp35") then [MacWarning.cpython35Unsupported]
        else [])) := by
  simp only [macos_get_python_configurations, macosSelected, h11, if_true]
  rw [ifAnyFilter, ifAnyFilter]

/-- Before macOS 11, `get_python_configurations` returns the selected
catalog entries unchanged and warns about nothing. -/
theorem macosGet_eq_of_lt (build_selector : String → Bool)
    (architectures : List Architecture) (macosVersion : Nat × Nat)
    (h11 : pyTupleLe (11, 0) macosVersion = false) :
    macos_get_python_configurations build_selector architectures macosVersion =
      (macosSelected build_selector architectures, []) := by
  simp [macos_get_python_configurations, macosSelected, h11]

/-- No catalog identifier starts with both `cp35` and `pp`. -/
theorem catalog_cp35_not_pp :
    ∀ c ∈ macPythonConfigurations, strStartsWith c.identifier "cp35" = true →
      strStartsWith c.identifier "pp" = false := by
  decide

/-- C5: on macOS 11 or later (version tuple at least `(11, 0)`), the macOS
matrix enumerator returns no PyPy (`pp*`) and no CPython 3.5 (`cp35*`)
configuration, and each such family the architecture and selector filters
would otherwise have included is dropped with a logged warning. -/
theorem C5_macos11_pruning (build_selector : String → Bool)
    (architectures : List Architecture) (macosVersion : Nat × Nat)
    (h11 : pyTupleLe (11, 0) macosVersion = true) :
    (∀ c ∈ (macos_get_python_configurations build_selector architectures macosVersion).1,
      strStartsWith c.identifier "pp" = false ∧ strStartsWith c.identifier "cp35" = false) ∧
    ((macosSelected build_selector architectures).any
        (fun c => strStartsWith c.identifier "pp") = true →
      MacWarning.pypyUnsupported ∈
        (macos_get_python_configurations build_selector architectures macosVersion).2) ∧
    ((macosSelected build_selector architectures).any
        (fun c => strStartsWith c.identifier "cp35") = true →
      MacWarning.cpython35Unsupported ∈
        (macos_get_python_configurations build_selector architectures macosVersion).2) := by
  rw [macosGet_eq_of_ge build_selector architectures macosVersion h11]
  refine ⟨?_, ?_, ?_⟩
  · intro c hc
    simp only [List.mem_filter, Bool.not_eq_true'] at hc
    exact ⟨hc.1.2, hc.2⟩
  · intro h
    simp [h]
  · intro h
    obtain ⟨c, hc, h35⟩ := List.any_eq_true.mp h
    have hcat : c ∈ macPythonConfigurations :=
      List.mem_of_mem_filter (List.mem_of_mem_filter hc)
    have hpp : strStartsWith c.identifier "pp" = false := catalog_cp35_not_pp c hcat h35
    have hmem : c ∈ (macosSelected build_selector architectures).filter
        (fun c => !strStartsWith c.identifier "pp") :=
      List.mem_filter.mpr ⟨hc, by simp [hpp]⟩
    have hany : ((macosSelected build_selector architectures).filter
        (fun c => !strStartsWith c.identifier "pp")).any
        (fun c => strStartsWith c.identifier "cp35") = true :=
      List.any_eq_true.mpr ⟨c, hmem, h35⟩
    simp [hany]

/-- C5 (witness): with an all-accepting selector, the `x86_64` architecture
and detected version `(11, 0)`, the returned configurations contain no PyPy
and no CPython 3.5 entry and both warnings are logged. -/
theorem C5_witness :
    (∀ c ∈ (macos_get_python_configurations (fun _ => true) [Architecture.x86_64] (11, 0)).1,
      strStartsWith c.identifier "pp" = false ∧ strStartsWith c.identifier "cp35" = false) ∧
    MacWarning.pypyUnsupported ∈
      (macos_get_python_configurations (fun _ => true) [Architecture.x86_64] (11, 0)).2 ∧
    MacWarning.cpython35Unsupported ∈
      (macos_get_python_configurations (fun _ => true) [Architecture.x86_64] (11, 0)).2 := by
  have h := C5_macos11_pruning (fun _ => true) [Architecture.x86_64] (11, 0) (by decide)
  exact ⟨h.1, h.2.1 (by decide), h.2.2 (by decide)⟩

/-- C10: the claim that `get_python_configurations` returns exactly the
catalog entries accepted by the selector and the architecture filter is
false on macOS: with an all-accepting selector, architecture `x86_64` and
detected version `(11, 0)`, the PyPy and CPython 3.5 entries are accepted
by both filters yet absent from the output. -/
theorem C10_counterexample :
    (macos_get_python_configurations (fun _ => true) [Architecture.x86_64] (11, 0)).1 ≠
      (macPythonConfigurations.filter
          (fun c => [Architecture.x86_64].any (fun a => strEndsWith c.identifier a.value))).filter
          (fun _ => true) := by
  decide

/-- C10 (amended): both enumerators return a subsequence of their static
catalog (catalog order, hence stable and deterministic): on Linux exactly
the selector-accepted entries; on macOS exactly the entries accepted by the
architecture filter and the selector, minus — when the detected version is
at least `(11, 0)` — the `pp*` and `cp35*` families. -/
theorem C10_amended (build_selector : String → Bool) (architectures : List Architecture)
    (macosVersion : Nat × Nat) :
    List.Sublist (linux_get_python_configurations build_selector) linuxPythonConfigurations ∧
    (∀ c, c ∈ linux_get_python_configurations build_selector ↔
      (c ∈ linuxPythonConfigurations ∧ build_selector c.identifier = true)) ∧
    List.Sublist (macos_get_python_configurations build_selector architectures macosVersion).1
      macPythonConfigurations ∧
    (∀ c, c ∈ (macos_get_python_configurations build_selector architectures macosVersion).1 ↔
      (c ∈ macPythonConfigurations ∧
       architectures.any (fun a => strEndsWith c.identifier a.value) = true ∧
       build_selector c.identifier = true ∧
       (pyTupleLe (11, 0) macosVersion = true →
         strStartsWith c.identifier "pp" = false ∧ strStartsWith c.identifier "cp35" = false))) := by
  refine ⟨List.filter_sublist _, ?_, ?_, ?_⟩
  · intro c
    simp [linux_get_python_configurations, List.mem_filter]
  · cases h11 : pyTupleLe (11, 0) macosVersion
    · rw [macosGet_eq_of_lt _ _ _ h11]
      simp only [macosSelected]
      exact (List.filter_sublist _).trans (List.filter_sublist _)
    · rw [macosGet_eq_of_ge _ _ _ h11]
      simp only [macosSelected]
      exact (List.filter_sublist _).trans ((List.filter_sublist _).trans
        ((List.filter_sublist _).trans (List.filter_sublist _)))
  · intro c
    cases h11 : pyTupleLe (11, 0) macosVersion
    · rw [macosGet_eq_of_lt _ _ _ h11]
      simp only [macosSelected, List.mem_filter]
      tauto
    · rw [macosGet_eq_of_ge _ _ _ h11]
      simp only [macosSelected, List.mem_filter, Bool.not_eq_true', forall_const]
      tauto

/-- The per-configuration pipeline never emits the arch-check event. -/
theorem buildOneConfig_no_valueError (rc tc : Bool) (orc : ConfigOracle) (fs : StageFS) :
    MacEvent.raisedValueError ∉ (buildOneConfig rc tc orc fs).1 := by
  simp only [buildOneConfig, Option.getD_some, List.nil_append]
  repeat' split
  all_goals simp

/-- The configuration loop never emits the arch-check event. -/
theorem macosBuildConfigs_no_valueError (rc tc : Bool) (oracles : List ConfigOracle)
    (fs : StageFS) :
    MacEvent.raisedValueError ∉ (macosBuildConfigs rc tc oracles fs).1 := by
  induction oracles generalizing fs with
  | nil => simp [macosBuildConfigs]
  | cons orc rest ih =>
    have h1 := buildOneConfig_no_valueError rc tc orc fs
    simp only [macosBuildConfigs]
    rcases hb : buildOneConfig rc tc orc fs with ⟨evs, r⟩
    rw [hb] at h1
    cases r with
    | error e => simpa using h1
    | ok fs1 =>
      have h2 := ih fs1
      rcases hc : macosBuildConfigs rc tc rest fs1 with ⟨evs1, r1⟩
      rw [hc] at h2
      simp only [hc, List.mem_append, not_or]
      exact ⟨by simpa using h1, by simpa using h2⟩

/-- C2: `macos.py` `build` raises `ValueError` — before creating any
temporary directory or touching any configuration — exactly when the
requested architecture set is a subset of `{x86_64, universal2, arm64}`
(the check as the source writes it); a non-subset architecture list passes
the check and the build proceeds to create its temporary directory. -/
theorem C2_arch_check (architectures : List Architecture) (rc tc : Bool)
    (oracles : List ConfigOracle) (fs : StageFS) :
    (architectures.all (fun a => allowedArchs.contains a) = true →
      macosBuild architectures rc tc oracles fs =
        ([MacEvent.raisedValueError], .error .valueError)) ∧
    (architectures.all (fun a => allowedArchs.contains a) = false →
      MacEvent.raisedValueError ∉ (macosBuild architectures rc tc oracles fs).1 ∧
      (macosBuild architectures rc tc oracles fs).1.head? = some MacEvent.madeTempDir) := by
  constructor
  · intro h
    simp only [macosBuild, h]
    simp
  · intro h
    have hloop := macosBuildConfigs_no_valueError rc tc oracles fs
    rcases hc : macosBuildConfigs rc tc oracles fs with ⟨evs, r⟩
    rw [hc] at hloop
    simp only [macosBuild, h, Bool.false_eq_true, if_false, hc]
    constructor
    · simpa using hloop
    · rfl

/-- C2 (witness): the architecture list `[x86_64]` — a subset of the
allowed set — is rejected with `ValueError` and nothing else happens, while
`[i686]` — not a subset — passes the check. -/
theorem C2_witness :
    macosBuild [Architecture.x86_64] true true [] ⟨none, none, []⟩ =
      ([MacEvent.raisedValueError], .error .valueError) ∧
    MacEvent.raisedValueError ∉
      (macosBuild [Architecture.i686] true true [] ⟨none, none, []⟩).1 :=
  ⟨(C2_arch_check [Architecture.x86_64] true true [] ⟨none, none, []⟩).1 (by decide),
   ((C2_arch_check [Architecture.i686] true true [] ⟨none, none, []⟩).2 (by decide)).1⟩

/-- The macOS built-wheel glob only ever sees the files `pip wheel` just
produced, whatever the stage directory held before. -/
theorem buildOneConfig_globbedBuilt (rc tc : Bool) (orc : ConfigOracle) (fs : StageFS)
    (l : List String) :
    MacEvent.globbedBuilt l ∈ (buildOneConfig rc tc orc fs).1 →
      l = wheelGlob orc.builtProduced := by
  simp only [buildOneConfig, Option.getD_some, List.nil_append]
  repeat' split
  all_goals simp_all

/-- The macOS repaired-wheel glob only ever sees the files the repair step
just produced, or the single built wheel just moved in. -/
theorem buildOneConfig_globbedRepaired (rc tc : Bool) (orc : ConfigOracle) (fs : StageFS)
    (l : List String) :
    MacEvent.globbedRepaired l ∈ (buildOneConfig rc tc orc fs).1 →
      l = wheelGlob orc.repairProduced ∨
      ∃ w, (wheelGlob orc.builtProduced).head? = some w ∧ l = wheelGlob [w] := by
  simp only [buildOneConfig, Option.getD_some, List.nil_append]
  repeat' split
  all_goals simp_all

/-- Every macOS per-configuration trace starts by purging the built-wheel
directory. -/
theorem buildOneConfig_head (rc tc : Bool) (orc : ConfigOracle) (fs : StageFS) :
    (buildOneConfig rc tc orc fs).1.head? = some MacEvent.purgedBuiltDir := by
  simp only [buildOneConfig, Option.getD_some, List.nil_append]
  repeat' split
  all_goals simp

/-- A macOS repair step is always preceded by a purge of the repaired-wheel
directory. -/
theorem buildOneConfig_repair_purged (rc tc : Bool) (orc : ConfigOracle) (fs : StageFS) :
    MacEvent.ranRepair ∈ (buildOneConfig rc tc orc fs).1 →
      MacEvent.purgedRepairedDir ∈ (buildOneConfig rc tc orc fs).1 := by
  simp only [buildOneConfig, Option.getD_some, List.nil_append]
  repeat' split
  all_goals simp

/-- The Linux built-wheel glob only ever sees the files `pip wheel` just
produced, whatever `/tmp/built_wheel` held before. -/
theorem linuxBuildOneConfig_globbedBuilt (rc tc : Bool) (orc : ConfigOracle) (fs : StageFS)
    (l : List String) :
    LinuxEvent.globbedBuilt l ∈ (linuxBuildOneConfig rc tc orc fs).1 →
      l = wheelGlob orc.builtProduced := by
  simp only [linuxBuildOneConfig, Option.getD_some, List.nil_append]
  repeat' split
  all_goals simp_all

/-- The Linux repaired-wheel glob only ever sees the files the repair step
just produced, or the single built wheel just moved in. -/
theorem linuxBuildOneConfig_globbedRepaired (rc tc : Bool) (orc : ConfigOracle) (fs : StageFS)
    (l : List String) :
    LinuxEvent.globbedRepaired l ∈ (linuxBuildOneConfig rc tc orc fs).1 →
      l = wheelGlob orc.repairProduced ∨
      ∃ w, (wheelGlob orc.builtProduced).head? = some w ∧ l = wheelGlob [w] := by
  simp only [linuxBuildOneConfig, Option.getD_some, List.nil_append]
  repeat' split
  all_goals simp_all

/-- Every Linux per-configuration script starts by purging
`/tmp/built_wheel`. -/
theorem linuxBuildOneConfig_head (rc tc : Bool) (orc : ConfigOracle) (fs : StageFS) :
    (linuxBuildOneConfig rc tc orc fs).1.head? = some LinuxEvent.purgedBuiltDir := by
  simp only [linuxBuildOneConfig, Option.getD_some, List.nil_append]
  repeat' split
  all_goals simp

/-- A Linux repair step is always preceded by a purge of
`/tmp/repaired_wheels`. -/
theorem linuxBuildOneConfig_repair_purged (rc tc : Bool) (orc : ConfigOracle) (fs : StageFS) :
    LinuxEvent.ranRepair ∈ (linuxBuildOneConfig rc tc orc fs).1 →
      LinuxEvent.purgedRepairedDir ∈ (linuxBuildOneConfig rc tc orc fs).1 := by
  simp only [linuxBuildOneConfig, Option.getD_some, List.nil_append]
  repeat' split
  all_goals simp

/-- C7: on both drivers each configuration starts by purging and recreating
the built-wheel stage directory, purges the repaired-wheel directory before
any repair step, and consequently each stage's wheel glob can only match
files produced by that stage for the current configuration — the built
glob sees exactly the `pip wheel` output, the repaired glob exactly the
repair output or the single moved-in built wheel, never stale files from
the incoming filesystem state. -/
theorem C7_stage_purge (rc tc : Bool) (orc : ConfigOracle) (fs : StageFS) (l : List String) :
    ((buildOneConfig rc tc orc fs).1.head? = some MacEvent.purgedBuiltDir ∧
     (MacEvent.ranRepair ∈ (buildOneConfig rc tc orc fs).1 →
       MacEvent.purgedRepairedDir ∈ (buildOneConfig rc tc orc fs).1) ∧
     (MacEvent.globbedBuilt l ∈ (buildOneConfig rc tc orc fs).1 →
       l = wheelGlob orc.builtProduced) ∧
     (MacEvent.globbedRepaired l ∈ (buildOneConfig rc tc orc fs).1 →
       l = wheelGlob orc.repairProduced ∨
       ∃ w, (wheelGlob orc.builtProduced).head? = some w ∧ l = wheelGlob [w])) ∧
    ((linuxBuildOneConfig rc tc orc fs).1.head? = some LinuxEvent.purgedBuiltDir ∧
     (LinuxEvent.ranRepair ∈ (linuxBuildOneConfig rc tc orc fs).1 →
       LinuxEvent.purgedRepairedDir ∈ (linuxBuildOneConfig rc tc orc fs).1) ∧
     (LinuxEvent.globbedBuilt l ∈ (linuxBuildOneConfig rc tc orc fs).1 →
       l = wheelGlob orc.builtProduced) ∧
     (LinuxEvent.globbedRepaired l ∈ (linuxBuildOneConfig rc tc orc fs).1 →
       l = wheelGlob orc.repairProduced ∨
       ∃ w, (wheelGlob orc.builtProduced).head? = some w ∧ l = wheelGlob [w])) :=
  ⟨⟨buildOneConfig_head rc tc orc fs, buildOneConfig_repair_purged rc tc orc fs,
    buildOneConfig_globbedBuilt rc tc orc fs l, buildOneConfig_globbedRepaired rc tc orc fs l⟩,
   ⟨linuxBuildOneConfig_head rc tc orc fs, linuxBuildOneConfig_repair_purged rc tc orc fs,
    linuxBuildOneConfig_globbedBuilt rc tc orc fs l,
    linuxBuildOneConfig_globbedRepaired rc tc orc fs l⟩⟩

/-- C7 (witness): with a stale wheel in both stage directories, the built
glob of a concrete configuration sees exactly the freshly produced wheel. -/
theorem C7_witness :
    ["a-1.0-cp39-cp39-macosx_x86_64.whl"] =
      wheelGlob (ConfigOracle.mk ["a-1.0-cp39-cp39-macosx_x86_64.whl"]
        ["b-1.0-cp39-cp39-macosx_x86_64.whl"]).builtProduced :=
  ((C7_stage_purge true true
      ⟨["a-1.0-cp39-cp39-macosx_x86_64.whl"], ["b-1.0-cp39-cp39-macosx_x86_64.whl"]⟩
      ⟨some ["stale.whl"], some ["stale2.whl"], []⟩
      ["a-1.0-cp39-cp39-macosx_x86_64.whl"]).1.2.2.1 (by decide))

/-- C8: after the repair step, a repaired wheel whose stem ends in
`_universal2` is renamed by appending `.macosx_11_0_universal2` to the
stem and the renamed file is the one moved to the output directory; a
wheel whose stem does not end in `_universal2` is moved unchanged, with no
rename event at all. -/
theorem C8_universal2_rename (tc : Bool) (orc : ConfigOracle) (fs : StageFS) (w r : String)
    (hw : (wheelGlob orc.builtProduced).head? = some w)
    (hpure : strEndsWith w "none-any.whl" = false)
    (hr : (wheelGlob orc.repairProduced).head? = some r) :
    (strEndsWith (pathStem r) "_universal2" = true →
      MacEvent.renamedWheel r (pathStem r ++ ".macosx_11_0_universal2.whl") ∈
        (buildOneConfig true tc orc fs).1 ∧
      MacEvent.movedToOutput (pathStem r ++ ".macosx_11_0_universal2.whl") ∈
        (buildOneConfig true tc orc fs).1) ∧
    (strEndsWith (pathStem r) "_universal2" = false →
      (∀ a b, MacEvent.renamedWheel a b ∉ (buildOneConfig true tc orc fs).1) ∧
      MacEvent.movedToOutput r ∈ (buildOneConfig true tc orc fs).1) := by
  constructor
  · intro hU2
    cases tc <;> simp [buildOneConfig, hw, hpure, hr, hU2]
  · intro hU2
    refine ⟨fun a b => ?_, ?_⟩ <;>
      cases tc <;> simp [buildOneConfig, hw, hpure, hr, hU2]

/-- C8 (witness): a concrete repaired wheel with a `_universal2` stem is
renamed to carry the `macosx_11_0_universal2` tag and the renamed name is
the one moved to output. -/
theorem C8_witness :
    MacEvent.renamedWheel "w-1.0-cp39-cp39-macosx_10_9_universal2.whl"
        "w-1.0-cp39-cp39-macosx_10_9_universal2.macosx_11_0_universal2.whl" ∈
      (buildOneConfig true true
        ⟨["w-1.0-cp39-cp39-macosx_x86_64.whl"], ["w-1.0-cp39-cp39-macosx_10_9_universal2.whl"]⟩
        ⟨none, none, []⟩).1 ∧
    MacEvent.movedToOutput "w-1.0-cp39-cp39-macosx_10_9_universal2.macosx_11_0_universal2.whl" ∈
      (buildOneConfig true true
        ⟨["w-1.0-cp39-cp39-macosx_x86_64.whl"], ["w-1.0-cp39-cp39-macosx_10_9_universal2.whl"]⟩
        ⟨none, none, []⟩).1 :=
  (C8_universal2_rename true
    ⟨["w-1.0-cp39-cp39-macosx_x86_64.whl"], ["w-1.0-cp39-cp39-macosx_10_9_universal2.whl"]⟩
    ⟨none, none, []⟩ "w-1.0-cp39-cp39-macosx_x86_64.whl"
    "w-1.0-cp39-cp39-macosx_10_9_universal2.whl"
    (by decide) (by decide) (by decide)).1 (by decide)

/-- C1: the claim that a `none-any.whl` wheel raises
`NonPlatformWheelError` on every platform driver is false for the Linux
container script: with a pure-Python built wheel it moves the wheel to the
repaired-wheels directory, runs the test step and completes normally. -/
theorem C1_counterexample :
    LinuxEvent.ranTest ∈
      (linuxBuildOneConfig true true ⟨["foo-1.0-py3-none-any.whl"], []⟩
        ⟨some ["stale.whl"], none, []⟩).1 ∧
    LinuxEvent.movedBuiltToRepaired ∈
      (linuxBuildOneConfig true true ⟨["foo-1.0-py3-none-any.whl"], []⟩
        ⟨some ["stale.whl"], none, []⟩).1 ∧
    LinuxEvent.ranRepair ∉
      (linuxBuildOneConfig true true ⟨["foo-1.0-py3-none-any.whl"], []⟩
        ⟨some ["stale.whl"], none, []⟩).1 ∧
    (linuxBuildOneConfig true true ⟨["foo-1.0-py3-none-any.whl"], []⟩
        ⟨some ["stale.whl"], none, []⟩).2 =
      Except.ok ⟨some [], some [], ["foo-1.0-py3-none-any.whl"]⟩ :=
  ⟨by decide, by decide, by decide, rfl⟩

/-- C1 (amended): when the built wheel's name ends in `none-any.whl`, the
macOS driver raises `NonPlatformWheelError` immediately — before any
repair or test step — while the Linux container script instead treats the
wheel like the empty-repair-command case: it moves it to the
repaired-wheels directory, skips repair and completes the configuration. -/
theorem C1_amended (rc tc : Bool) (orc : ConfigOracle) (fs : StageFS) (w : String)
    (hw : (wheelGlob orc.builtProduced).head? = some w)
    (hpure : strEndsWith w "none-any.whl" = true) :
    buildOneConfig rc tc orc fs =
      ([MacEvent.purgedBuiltDir, MacEvent.ranPipWheel,
        MacEvent.globbedBuilt (wheelGlob orc.builtProduced), MacEvent.purgedRepairedDir,
        MacEvent.raisedNonPlatformWheel], .error .nonPlatformWheel) ∧
    MacEvent.ranRepair ∉ (buildOneConfig rc tc orc fs).1 ∧
    MacEvent.ranTest ∉ (buildOneConfig rc tc orc fs).1 ∧
    LinuxEvent.movedBuiltToRepaired ∈ (linuxBuildOneConfig rc tc orc fs).1 ∧
    LinuxEvent.ranRepair ∉ (linuxBuildOneConfig rc tc orc fs).1 ∧
    (∃ fs1, (linuxBuildOneConfig rc tc orc fs).2 = Except.ok fs1) := by
  have hmac : buildOneConfig rc tc orc fs =
      ([MacEvent.purgedBuiltDir, MacEvent.ranPipWheel,
        MacEvent.globbedBuilt (wheelGlob orc.builtProduced), MacEvent.purgedRepairedDir,
        MacEvent.raisedNonPlatformWheel], .error .nonPlatformWheel) := by
    simp [buildOneConfig, hw, hpure]
  have hlin : (linuxBuildOneConfig rc tc orc fs).1 =
      [LinuxEvent.purgedBuiltDir, LinuxEvent.ranPipWheel,
        LinuxEvent.globbedBuilt (wheelGlob orc.builtProduced), LinuxEvent.purgedRepairedDir,
        LinuxEvent.movedBuiltToRepaired, LinuxEvent.globbedRepaired (wheelGlob [w])] ++
      (if tc then [LinuxEvent.ranTest] else []) ++
      [LinuxEvent.movedToOutput (wheelGlob [w])] := by
    simp [linuxBuildOneConfig, hw, hpure]
  refine ⟨hmac, ?_, ?_, ?_, ?_, ?_⟩
  · rw [hmac]; simp
  · rw [hmac]; simp
  · rw [hlin]; simp
  · rw [hlin]; cases tc <;> simp
  · simp [linuxBuildOneConfig, hw, hpure]

/-- C1 (witness): a concrete pure-Python wheel aborts the macOS pipeline
with `NonPlatformWheelError` before any repair or test event. -/
theorem C1_witness :
    buildOneConfig true true ⟨["foo-1.0-py3-none-any.whl"], []⟩ ⟨some ["stale.whl"], none, []⟩ =
      ([MacEvent.purgedBuiltDir, MacEvent.ranPipWheel,
        MacEvent.globbedBuilt ["foo-1.0-py3-none-any.whl"], MacEvent.purgedRepairedDir,
        MacEvent.raisedNonPlatformWheel], .error .nonPlatformWheel) :=
  (C1_amended true true ⟨["foo-1.0-py3-none-any.whl"], []⟩ ⟨some ["stale.whl"], none, []⟩
    "foo-1.0-py3-none-any.whl" (by decide) (by decide)).1

/-- C4: the claim that an interrupt arriving during `run_docker`'s streamed
`communicate` is re-raised after the child is torn down is false: with the
child killed at returncode -9, `run_docker` raises `CalledProcessError`,
not `KeyboardInterrupt`. -/
theorem C4_counterexample :
    runDockerStdin true (-9) =
      ([ChildAction.communicate, ChildAction.kill, ChildAction.wait],
        RunDockerOutcome.calledProcessError (-9)) ∧
    (runDockerStdin true (-9)).2 ≠ RunDockerOutcome.keyboardInterrupt := by
  decide

/-- C4 (amended): when a `KeyboardInterrupt` arrives during the streamed
`communicate`, the child docker process is killed and waited on, but the
interrupt itself is swallowed: afterwards `run_docker` raises
`CalledProcessError` when the reaped returncode is nonzero and returns
normally when it is zero — a `KeyboardInterrupt` never propagates. -/
theorem C4_amended (returncode : Int) :
    ChildAction.kill ∈ (runDockerStdin true returncode).1 ∧
    ChildAction.wait ∈ (runDockerStdin true returncode).1 ∧
    (runDockerStdin true returncode).2 ≠ RunDockerOutcome.keyboardInterrupt ∧
    (runDockerStdin true returncode).2 =
      (if returncode = 0 then RunDockerOutcome.ok
       else RunDockerOutcome.calledProcessError returncode) := by
  refine ⟨by simp [runDockerStdin], by simp [runDockerStdin], ?_, ?_⟩ <;>
    by_cases h : returncode = 0 <;> simp [runDockerStdin, h]

/-- C9: the claim that an unavailable docker engine makes the Linux build
fail with `ProvisioningError` is false: the probe failure leads to
`exit(2)`, not to a `ProvisioningError`; no enumeration or container
creation happens. -/
theorem C9_counterexample :
    (linuxBuildEntry false true).2 = some (LinuxAbort.exitCode 2) ∧
    (linuxBuildEntry false true).2 ≠ some LinuxAbort.provisioningError ∧
    LinuxEntryEvent.enumeratedConfigs ∉ (linuxBuildEntry false true).1 ∧
    LinuxEntryEvent.createdContainer ∉ (linuxBuildEntry false true).1 := by
  decide

/-- C9 (amended): when the `docker --version` probe fails, the Linux build
entry point prints an error and terminates with exit status 2, without
enumerating configurations and without creating any container. -/
theorem C9_amended (anyPlatformConfigs : Bool) :
    linuxBuildEntry false anyPlatformConfigs =
      ([LinuxEntryEvent.probedDocker, LinuxEntryEvent.printedDockerNotFound],
        some (LinuxAbort.exitCode 2)) ∧
    LinuxEntryEvent.enumeratedConfigs ∉ (linuxBuildEntry false anyPlatformConfigs).1 ∧
    LinuxEntryEvent.createdContainer ∉ (linuxBuildEntry false anyPlatformConfigs).1 := by
  cases anyPlatformConfigs <;> decide

/-- The trace of a command sequence extends the incoming trace only with
planned commands. -/
theorem runSeq_trace (oracle : Nat → Option PyExc) (plan : List DockerCmd) :
    ∀ tr, ∃ s, (runSeq oracle tr plan).1 = tr ++ s ∧ ∀ c ∈ s, c ∈ plan := by
  induction plan with
  | nil => intro tr; exact ⟨[], by simp [runSeq], by simp⟩
  | cons c cs ih =>
    intro tr
    simp only [runSeq, issue]
    cases h : oracle tr.length with
    | none =>
      obtain ⟨s, hs, hmem⟩ := ih (tr ++ [c])
      refine ⟨c :: s, ?_, ?_⟩
      · simp [h, hs]
      · intro x hx
        rcases List.mem_cons.mp hx with hx | hx
        · simp [hx]
        · exact List.mem_cons_of_mem c (hmem x hx)
    | some e => exact ⟨[c], by simp [h], by simp⟩

/-- Starting from an empty trace, running a nonempty plan issues its first
command first, then only planned commands. -/
theorem runSeq_trace_cons (oracle : Nat → Option PyExc) (c : DockerCmd) (cs : List DockerCmd) :
    ∃ s, (runSeq oracle [] (c :: cs)).1 = c :: s ∧ ∀ x ∈ s, x ∈ cs := by
  simp only [runSeq, issue, List.nil_append]
  cases h : oracle ([] : List DockerCmd).length with
  | none =>
    obtain ⟨s, hs, hmem⟩ := runSeq_trace oracle cs [c]
    exact ⟨s, by simp [h, hs], hmem⟩
  | some e => exact ⟨[], by simp [h], by simp⟩

/-- The `try` body of the per-platform scope never issues `docker rm`. -/
theorem bodyPlan_no_rm (hasConstraints : Bool) (nConfigs : Nat) :
    DockerCmd.rm ∉ bodyPlan hasConstraints nConfigs := by
  intro h
  simp only [bodyPlan, List.mem_append, List.mem_cons, List.mem_flatten,
    List.mem_replicate, List.mem_singleton] at h
  rcases h with ((h | h) | ⟨l, ⟨hn, hl⟩, hmem⟩) | h
  · exact DockerCmd.noConfusion h
  · simp_all
  · subst hl
    cases hasConstraints <;> simp_all
  · simp_all

/-- C3: for every outcome of every docker command (success,
`CalledProcessError` — answered by `exit(1)` — or any other exception),
the per-platform scope's issued-command trace is the container-create
command first, then body commands among which `docker rm` never appears,
and ends with exactly one forcible `docker rm` — the removal runs on every
exit path, exactly once. -/
theorem C3_container_removed (oracle : Nat → Option PyExc) (hasConstraints : Bool)
    (nConfigs : Nat) :
    ∃ s, (linuxPlatformScope oracle hasConstraints nConfigs).1 = s ++ [DockerCmd.rm] ∧
      DockerCmd.rm ∉ s ∧ s.head? = some DockerCmd.create := by
  obtain ⟨s, hs, hmem⟩ := runSeq_trace_cons oracle DockerCmd.create
    ([DockerCmd.copyProjectIn] ++
      (List.replicate nConfigs
        ((if hasConstraints then [DockerCmd.copyConstraints] else []) ++
          [DockerCmd.start])).flatten ++ [DockerCmd.copyOut])
  have hplan : bodyPlan hasConstraints nConfigs =
      DockerCmd.create :: ([DockerCmd.copyProjectIn] ++
        (List.replicate nConfigs
          ((if hasConstraints then [DockerCmd.copyConstraints] else []) ++
            [DockerCmd.start])).flatten ++ [DockerCmd.copyOut]) := by
    simp [bodyPlan]
  refine ⟨DockerCmd.create :: s, ?_, ?_, rfl⟩
  · rcases hrs : runSeq oracle [] (bodyPlan hasConstraints nConfigs) with ⟨tr, r⟩
    have htr : tr = DockerCmd.create :: s := by
      rw [hplan] at hrs
      rw [hrs] at hs
      exact hs
    simp only [linuxPlatformScope, hrs, issue]
    cases r with
    | none => simp [htr]
    | some e => cases e <;> simp [htr]
  · intro hmem2
    rcases List.mem_cons.mp hmem2 with h | h
    · exact DockerCmd.noConfusion h
    · exact bodyPlan_no_rm hasConstraints nConfigs
        (by rw [hplan]; exact List.mem_cons_of_mem _ (hmem _ h))

/-- C6: the environment evaluator substitutes `$VAR` and `braced` variable
references from earlier assignments first and the caller-supplied base
environment second; the claim's concrete cases: `TEST_VAR="$PARAM"` with
base `PARAM=spam` gives `spam`, `TEST_VAR="before $PARAM after"` gives
`before spam after`, an undefined variable expands to the empty string
without raising, and an earlier assignment shadows the base environment. -/
theorem C6_environment_substitution :
    (evalEnvironmentText "TEST_VAR=\"$PARAM\"" [("PARAM", "spam")]).map
        (fun e => envLookup e "TEST_VAR") = some (some "spam") ∧
    (evalEnvironmentText "TEST_VAR=\"before $PARAM after\"" [("PARAM", "spam")]).map
        (fun e => envLookup e "TEST_VAR") = some (some "before spam after") ∧
    (evalEnvironmentText "TEST_VAR=\"$UNDEFINED\"" []).map
        (fun e => envLookup e "TEST_VAR") = some (some "") ∧
    (evalEnvironmentText
        ("TEST_VAR=\"$" ++ String.singleton cLbrace ++ "PARAM" ++ String.singleton cRbrace ++ "\"")
        [("PARAM", "spam")]).map
        (fun e => envLookup e "TEST_VAR") = some (some "spam") ∧
    (evalEnvironmentText "A=x B=\"$A\"" [("A", "y")]).map
        (fun e => envLookup e "B") = some (some "x") := by
  exact ⟨rfl, rfl, rfl, rfl, rfl⟩

end Cibw
